import Mathlib

/-!
Verification of the input-table reconciliation and payload-building logic of
the Streamlit transport-input prototype (src/GUIapp.py), against its
natural-language specification.

The pandas DataFrames of the source are embedded as `DF`: a list of row
labels, a list of column labels, and a cell function.  A cell value is an
`Option ℚ`: `some q` is an ordinary float cell, `none` is pandas `NaN`
(produced by `reindex` without a `fill_value`).  Python string operations
used for column-name normalisation are embedded as structural functions on
the character list of the string, so that they evaluate by `decide`.
-/

/-- A pandas cell value: `some q` is a float, `none` is `NaN`. -/
abbrev FVal := Option ℚ

/-- Embeds `YEARS = list(range(2020, 2051, 5))` (GUIapp.py line 63):
the 7-element arithmetic progression 2020, 2025, ..., 2050. -/
def YEARS : List Nat := List.range' 2020 7 5

/-- Embeds `FUEL_ROWS` (GUIapp.py line 64). -/
def FUEL_ROWS : List String :=
  [("Gasoline (%)"), ("Diesel (%)"), ("Electric (%)"), ("Biofuel (%)"), ("Total (%)")]

/-- A pandas DataFrame with row labels `ρ`, column labels `κ`.
`entry` is only meaningful on `index × columns`; every operation guards
cell access by label membership. -/
structure DF (ρ κ : Type) where
  index : List ρ
  columns : List κ
  entry : ρ → κ → FVal

/-- Embeds `DataFrame.reindex(index=idx, columns=cols, fill_value=fill)`:
the result has exactly the requested labels; a cell keeps its old value when
both labels existed in the old frame and is `fill` otherwise
(`fill = none` embeds the default `NaN` fill). -/
def DF.reindex {ρ κ : Type} [DecidableEq ρ] [DecidableEq κ]
    (d : DF ρ κ) (idx : List ρ) (cols : List κ) (fill : FVal) : DF ρ κ :=
  { index := idx
    columns := cols
    entry := fun r c => if r ∈ d.index ∧ c ∈ d.columns then d.entry r c else fill }

/-- Embeds `DataFrame.T`. -/
def DF.transpose {ρ κ : Type} (d : DF ρ κ) : DF κ ρ :=
  { index := d.columns, columns := d.index, entry := fun c r => d.entry r c }

/-- Embeds Python `str.lower()` for the ASCII column names used here. -/
def pyLower (s : String) : String := ⟨s.data.map Char.toLower⟩

/-- Embeds Python `str.strip()`: drop whitespace from both ends. -/
def pyStrip (s : String) : String :=
  ⟨((s.data.dropWhile Char.isWhitespace).reverse.dropWhile Char.isWhitespace).reverse⟩

/-- Embeds Python `str.replace("(%)", "")` on the character list: delete every
(non-overlapping, left-to-right) occurrence of the three characters `(%)`. -/
def dropPercentUnit : List Char → List Char
  | '(' :: '%' :: ')' :: rest => dropPercentUnit rest
  | c :: rest => c :: dropPercentUnit rest
  | [] => []

/-- Embeds `fuel_col.lower().replace("(%)", "").strip()` (GUIapp.py line 122). -/
def fuelKey (c : String) : String := pyStrip ⟨dropPercentUnit (pyLower c).data⟩

/-- Embeds `c.strip().lower()` (GUIapp.py line 117). -/
def headerNorm (c : String) : String := pyLower (pyStrip c)

/-- Embeds the filter `c.strip().lower() not in ("total (%)", "total")`
(GUIapp.py line 117). -/
def notTotalCol (c : String) : Bool :=
  !((headerNorm c == "total (%)") || (headerNorm c == "total"))

/-- Embeds `build_transport_fuel_share` (GUIapp.py lines 111-125): reindex the
years×fuels frame to `YEARS × FUEL_ROWS` with `fill_value=0.0`, drop the
total column, and emit `{year: {normalized fuel key: share}}` in `YEARS`
order (an association list embeds the insertion-ordered Python dict). -/
def build_transport_fuel_share (d : DF Nat String) : List (Nat × List (String × FVal)) :=
  YEARS.map (fun year =>
    (year,
      ((d.reindex YEARS FUEL_ROWS (some 0)).columns.filter notTotalCol).map
        (fun c => (fuelKey c, (d.reindex YEARS FUEL_ROWS (some 0)).entry year c))))

/-- Embeds `build_transport_activity` (GUIapp.py lines 127-132): reindex the
1×years frame to columns `YEARS` (default `NaN` fill), take its first row
(`.iloc[0]`, which raises `IndexError` on an empty frame, embedded as
`none`), and emit `{year: value}` in `YEARS` order. -/
def build_transport_activity (d : DF String Nat) : Option (List (Nat × FVal)) :=
  match d.index with
  | [] => none
  | r :: _ => some (YEARS.map (fun y => (y, (d.reindex d.index YEARS none).entry r y)))

/-- Embeds the scalar selections of the session (country, scenario,
carbon budget). -/
structure Selection where
  country : String
  scenario : String
  carbon_budget : String

/-- Embeds the `payload` dict built on submit (GUIapp.py lines 210-216). -/
structure RunPayload where
  country : String
  scenario : String
  transport_fuel_share : List (Nat × List (String × FVal))
  transport_activity : List (Nat × FVal)
  other_inputs : List (String × String)

/-- Embeds the payload construction on submit (GUIapp.py lines 207-216):
build both nested tables, then assemble the dict.  `none` embeds the
`IndexError` escape of `.iloc[0]` on a rowless activity frame. -/
def buildRunPayload (sel : Selection) (d : DF Nat String) (km : DF String Nat) :
    Option RunPayload :=
  match build_transport_activity km with
  | none => none
  | some act =>
      some { country := sel.country
             scenario := sel.scenario
             transport_fuel_share := build_transport_fuel_share d
             transport_activity := act
             other_inputs := [(("carbon_budget"), sel.carbon_budget)] }

/-- The constant default row of `default_transport_df` (GUIapp.py lines 74-80). -/
def baseRow (c : String) : FVal :=
  if c = "Gasoline (%)" then some 30
  else if c = "Diesel (%)" then some 40
  else if c = "Electric (%)" then some 20
  else if c = "Biofuel (%)" then some 10
  else if c = "Total (%)" then some 100
  else none

/-- Embeds `default_transport_df` (GUIapp.py lines 69-83): rows = `YEARS`,
columns = `FUEL_ROWS`, every row the same 30/40/20/10 (total 100) split. -/
def default_transport_df : DF Nat String :=
  { index := YEARS, columns := FUEL_ROWS, entry := fun _ c => baseRow c }

/-- Embeds `default_transport_km_wide` (GUIapp.py lines 85-93): one row,
columns = `YEARS`, value 100 everywhere except 120 at 2050. -/
def default_transport_km_wide : DF String Nat :=
  { index := [("Transport km (% of 2020)")]
    columns := YEARS
    entry := fun _ y => if y = 2050 then some 120 else some 100 }

/-- Embeds `totals_series = edited_wide.sum(axis=0)` (GUIapp.py line 282):
per column (year), the sum over ALL rows of the fuels×years frame, with
`NaN` contributing 0 (pandas `skipna=True` default). -/
def totals_series (d : DF String Nat) : List (Nat × ℚ) :=
  d.columns.map (fun c => (c, (d.index.map (fun r => (d.entry r c).getD 0)).sum))

/-- Modelled from the spec: the derived attribute
`total(year) = Σ share(year, kind)` over the four input fuel kinds
(spec §3, FuelShareMatrix); the total pseudo-kind is not an input to it. -/
def derived_total (d : DF Nat String) (y : Nat) : ℚ :=
  (d.entry y ("Gasoline (%)")).getD 0 + (d.entry y ("Diesel (%)")).getD 0 +
    (d.entry y ("Electric (%)")).getD 0 + (d.entry y ("Biofuel (%)")).getD 0

/-- Modelled from the spec: `validate()` (spec §4.1, not implemented in
src/GUIapp.py): report every year whose derived four-kind total differs from
100 by more than 0.01; advisory, never raises. -/
def validate (d : DF Nat String) : List Nat :=
  YEARS.filter (fun y => decide ((1 : ℚ)/100 < |derived_total d y - 100|))

/-- The four input fuel kinds (spec §3, FuelKind). -/
inductive FuelKind where
  | gasoline
  | diesel
  | electric
  | biofuel
  deriving DecidableEq

/-- The fuel-share column of a fuel kind in the years×fuels frame. -/
def FuelKind.col : FuelKind → String
  | .gasoline => "Gasoline (%)"
  | .diesel => "Diesel (%)"
  | .electric => "Electric (%)"
  | .biofuel => "Biofuel (%)"

/-- The structural edit error kinds (spec §7). -/
inductive EditError where
  | OutOfRange
  | UnknownYear
  deriving DecidableEq

/-- Modelled from the spec: `apply_fuel_edit(year, kind, value)` (spec §4.1;
src/GUIapp.py has no such function — the range [0, 100] is enforced by the
editor widget bounds at lines 266-275).  Constraints: `year ∈ YearSet`
(else `UnknownYear`), `value ∈ [0, 100]` (else `OutOfRange`, reject at the
boundary); on success the single cell is overwritten. -/
def apply_fuel_edit (d : DF Nat String) (year : Nat) (kind : FuelKind) (value : ℚ) :
    Except EditError (DF Nat String) :=
  if year ∈ YEARS then
    if 0 ≤ value ∧ value ≤ 100 then
      Except.ok
        { index := d.index
          columns := d.columns
          entry := fun r c => if r = year ∧ c = kind.col then some value else d.entry r c }
    else Except.error EditError.OutOfRange
  else Except.error EditError.UnknownYear

/-- An HTTP request as assembled by the client. -/
structure HttpRequest where
  method : String
  url : String
  headers : List (String × String)

/-- Embeds the header construction of `call_backend_legacy_run`
(GUIapp.py line 50): `{"Authorization": f"Bearer {API_TOKEN}"} if API_TOKEN
else {}` — an unset token is the empty string (line 13), which is falsy. -/
def legacy_run_headers (token : String) : List (String × String) :=
  if token = "" then [] else [(("Authorization"), ("Bearer ") ++ token)]

/-- Embeds the request of `call_backend_legacy_run` (GUIapp.py line 51):
`requests.post(f"{API_URL}/v1/run", json=payload, headers=headers)`. -/
def legacy_run_request (base token : String) : HttpRequest :=
  { method := ("POST"), url := base ++ ("/v1/run"), headers := legacy_run_headers token }

/-- An HTTP response as seen by the client: status code and body text. -/
structure HttpResponse where
  status : Nat
  text : String

/-- The transport error of `raise_for_status` (spec §7, TransportFailure). -/
inductive TransportFailure where
  | httpError (status : Nat)
  deriving DecidableEq

/-- The value returned by `call_backend_legacy_run`: either the decoded JSON
body, or the raw body text wrapped under a `raw_text` key. -/
inductive RunResult (J : Type) where
  | json (j : J)
  | raw_text (s : String)
  deriving DecidableEq

/-- Embeds `r.raise_for_status()`: the requests library raises
`HTTPError` exactly for status codes 400-599. -/
def raise_for_status (r : HttpResponse) : Except TransportFailure Unit :=
  if 400 ≤ r.status ∧ r.status ≤ 599 then Except.error (TransportFailure.httpError r.status)
  else Except.ok ()

/-- Embeds `call_backend_legacy_run` (GUIapp.py lines 45-57) after the POST
returned response `r`: raise for status, then try `r.json()` — embedded as
the external decode function `parse` of the requests library — and fall
back to `{"raw_text": r.text}` when decoding fails. -/
def call_backend_legacy_run {J : Type} (parse : String → Option J) (r : HttpResponse) :
    Except TransportFailure (RunResult J) :=
  match raise_for_status r with
  | Except.error e => Except.error e
  | Except.ok _ =>
      match parse r.text with
      | some j => Except.ok (RunResult.json j)
      | none => Except.ok (RunResult.raw_text r.text)

/-- A value stored in the Streamlit session state. -/
inductive StateVal where
  | str (s : String)
  | dfYearsFuels (d : DF Nat String)
  | dfKmWide (d : DF String Nat)

/-- The session state: an insertion-ordered mapping from key to value,
embedded as an association list. -/
abbrev SessionState := List (String × StateVal)

/-- Embeds `st.session_state.setdefault(k, v)`: insert only when the key is
absent (at the end, matching dict insertion order). -/
def setdefault (st : SessionState) (k : String) (v : StateVal) : SessionState :=
  match List.lookup k st with
  | some _ => st
  | none => st ++ [(k, v)]

/-- Embeds the `defaults` dict of `init_state` (GUIapp.py lines 96-104),
in its insertion order. -/
def init_state_defaults : List (String × StateVal) :=
  [(("country"), StateVal.str ("Australia")),
   (("scenario"), StateVal.str ("Business-as-usual")),
   (("carbon_budget"), StateVal.str ("1.5 °C")),
   (("transport_df"), StateVal.dfYearsFuels default_transport_df),
   (("transport_km_wide"), StateVal.dfKmWide default_transport_km_wide)]

/-- Embeds `init_state` (GUIapp.py lines 95-106): `setdefault` each default
into the session state, in dict order. -/
def init_state (st : SessionState) : SessionState :=
  init_state_defaults.foldl (fun s kv => setdefault s kv.1 kv.2) st

/-- The default selection of the session (GUIapp.py lines 98-100). -/
def defaultSelection : Selection :=
  { country := ("Australia"), scenario := ("Business-as-usual"), carbon_budget := ("1.5 °C") }

/-- The default years×fuels frame with year 2045 removed
(spec §8, the incomplete-table scenario). -/
def dfMissing2045 : DF Nat String :=
  { index := [2020, 2025, 2030, 2035, 2040, 2050]
    columns := FUEL_ROWS
    entry := fun _ c => baseRow c }

/-- The default activity frame with year 2045 removed from its columns
(spec §8, the incomplete-table scenario). -/
def kmMissing2045 : DF String Nat :=
  { index := [("Transport km (% of 2020)")]
    columns := [2020, 2025, 2030, 2035, 2040, 2050]
    entry := fun _ y => if y = 2050 then some 120 else some 100 }

/-- The year axis evaluates to the seven years 2020-2050. -/
theorem YEARS_eval : YEARS = [2020, 2025, 2030, 2035, 2040, 2045, 2050] := by decide

theorem baseRow_g : baseRow ("Gasoline (%)") = some 30 := by decide

theorem baseRow_d : baseRow ("Diesel (%)") = some 40 := by decide

theorem baseRow_e : baseRow ("Electric (%)") = some 20 := by decide

theorem baseRow_b : baseRow ("Biofuel (%)") = some 10 := by decide

theorem baseRow_t : baseRow ("Total (%)") = some 100 := by decide

/-- The column filter of the fuel-share builder keeps exactly the four fuel
columns, dropping the total column. -/
theorem fuel_cols_eval (d : DF Nat String) :
    (d.reindex YEARS FUEL_ROWS (some 0)).columns.filter notTotalCol =
      [("Gasoline (%)"), ("Diesel (%)"), ("Electric (%)"), ("Biofuel (%)")] := rfl

/-- Projecting the first components of year-indexed pairs recovers the year list. -/
theorem map_fst_pairs {β : Type} (f : Nat → β) (l : List Nat) :
    (l.map (fun y => (y, f y))).map Prod.fst = l := by
  induction l with
  | nil => rfl
  | cons a t ih => simp [ih]

/-- Shape of one emitted year entry of the fuel-share builder. -/
theorem build_share_mem {d : DF Nat String} {yr : Nat} {sh : List (String × FVal)}
    (h : (yr, sh) ∈ build_transport_fuel_share d) :
    yr ∈ YEARS ∧
      sh = ((d.reindex YEARS FUEL_ROWS (some 0)).columns.filter notTotalCol).map
        (fun c => (fuelKey c, (d.reindex YEARS FUEL_ROWS (some 0)).entry yr c)) := by
  unfold build_transport_fuel_share at h
  obtain ⟨y, hy, heq⟩ := List.mem_map.mp h
  rw [Prod.mk.injEq] at heq
  obtain ⟨rfl, rfl⟩ := heq
  exact ⟨hy, rfl⟩

/-- The activity builder on a frame with a first row `r`. -/
theorem build_activity_cons {km : DF String Nat} {r : String} {rs : List String}
    (hidx : km.index = r :: rs) :
    build_transport_activity km =
      some (YEARS.map (fun y => (y, (km.reindex km.index YEARS none).entry r y))) := by
  unfold build_transport_activity
  rw [hidx]

/-- C4: for every fuel-share frame and every activity frame (with its one
data row present), whatever the order or content of their own year labels,
the year-key list of both built mappings is exactly `YEARS` — reindexing
forces the key set. -/
theorem payload_year_keys_exact :
    ∀ (d : DF Nat String) (km : DF String Nat), km.index ≠ [] →
      (build_transport_fuel_share d).map Prod.fst = YEARS ∧
      ∃ act, build_transport_activity km = some act ∧ act.map Prod.fst = YEARS := by
  intro d km hkm
  refine ⟨map_fst_pairs _ _, ?_⟩
  cases hidx : km.index with
  | nil => exact absurd hidx hkm
  | cons r rs => exact ⟨_, build_activity_cons hidx, map_fst_pairs _ _⟩

/-- C4 witness: at the default frames the key sets are exactly the seven years. -/
theorem payload_year_keys_exact_witness :
    (build_transport_fuel_share default_transport_df).map Prod.fst = YEARS ∧
    ∃ act, build_transport_activity default_transport_km_wide = some act ∧
      act.map Prod.fst = YEARS :=
  payload_year_keys_exact default_transport_df default_transport_km_wide (by decide)

/-- C3: every per-year mapping emitted by the fuel-share builder is keyed by
the normalized fuel keys — the column name lower-cased with the unit suffix
stripped ("Gasoline (%)" becomes "gasoline", and so on) — each mapped to the
(reindexed) share of its column, and the total pseudo-kind appears under no
key. -/
theorem fuel_share_keys_normalized :
    ∀ (d : DF Nat String) (yr : Nat) (sh : List (String × FVal)),
      (yr, sh) ∈ build_transport_fuel_share d →
      sh = [(("gasoline"), (d.reindex YEARS FUEL_ROWS (some 0)).entry yr ("Gasoline (%)")),
            (("diesel"), (d.reindex YEARS FUEL_ROWS (some 0)).entry yr ("Diesel (%)")),
            (("electric"), (d.reindex YEARS FUEL_ROWS (some 0)).entry yr ("Electric (%)")),
            (("biofuel"), (d.reindex YEARS FUEL_ROWS (some 0)).entry yr ("Biofuel (%)"))] ∧
      sh.map Prod.fst = [("gasoline"), ("diesel"), ("electric"), ("biofuel")] ∧
      ("total") ∉ sh.map Prod.fst ∧ ("total (%)") ∉ sh.map Prod.fst := by
  intro d yr sh h
  obtain ⟨hy, rfl⟩ := build_share_mem h
  rw [fuel_cols_eval]
  exact ⟨rfl, rfl,
    (by decide : ("total" : String) ∉ [("gasoline"), ("diesel"), ("electric"), ("biofuel")]),
    (by decide : ("total (%)" : String) ∉ [("gasoline"), ("diesel"), ("electric"), ("biofuel")])⟩

/-- C3 witness: the default frame's 2020 entry carries the four normalized
keys. -/
theorem fuel_share_keys_normalized_witness :
    ([(("gasoline" : String), (some 30 : FVal)), (("diesel"), some 40),
      (("electric"), some 20), (("biofuel"), some 10)]).map Prod.fst =
      [("gasoline"), ("diesel"), ("electric"), ("biofuel")] :=
  (fuel_share_keys_normalized default_transport_df 2020
    [(("gasoline"), (some 30 : FVal)), (("diesel"), some 40),
     (("electric"), some 20), (("biofuel"), some 10)] (by decide)).2.1

/-- C1 (amended): a table missing a year of `YEARS` does NOT abort the build —
there is no `IncompleteTable` failure in the code.  Both builders always
emit every year key; a year absent from the fuel-share frame is silently
emitted with share 0.0 for every fuel (the `fill_value=0.0` reindex), and a
year absent from the activity frame is emitted with a `NaN` value (the
plain reindex). -/
theorem build_fills_missing_years :
    ∀ (d : DF Nat String) (km : DF String Nat), km.index ≠ [] →
      (build_transport_fuel_share d).map Prod.fst = YEARS ∧
      (∀ yr sh, (yr, sh) ∈ build_transport_fuel_share d → yr ∉ d.index →
        ∀ p ∈ sh, p.2 = some 0) ∧
      ∃ act, build_transport_activity km = some act ∧ act.map Prod.fst = YEARS ∧
        ∀ p ∈ act, p.1 ∉ km.columns → p.2 = none := by
  intro d km hkm
  refine ⟨map_fst_pairs _ _, ?_, ?_⟩
  · intro yr sh hmem hyr p hp
    obtain ⟨hy, rfl⟩ := build_share_mem hmem
    rw [fuel_cols_eval] at hp
    obtain ⟨c, hc, rfl⟩ := List.mem_map.mp hp
    show (d.reindex YEARS FUEL_ROWS (some 0)).entry yr c = some 0
    simp [DF.reindex, hyr]
  · cases hidx : km.index with
    | nil => exact absurd hidx hkm
    | cons r rs =>
        refine ⟨_, build_activity_cons hidx, map_fst_pairs _ _, ?_⟩
        intro p hp hpc
        obtain ⟨y, hy, rfl⟩ := List.mem_map.mp hp
        show (km.reindex km.index YEARS none).entry r y = none
        simp only [List.map_map] at hpc
        simp [DF.reindex, hpc]

/-- C1 witness: at the default frames, the builders succeed and emit exactly
the seven year keys. -/
theorem build_fills_missing_years_witness :
    (build_transport_fuel_share default_transport_df).map Prod.fst = YEARS :=
  (build_fills_missing_years default_transport_df default_transport_km_wide (by decide)).1

/-- C1 counterexample: with year 2045 removed from the source tables, the
build does not fail: the fuel-share builder emits 2045 with every share
silently set to 0.0, and the activity builder emits 2045 with a `NaN`
value — refuting an `IncompleteTable` abort with no partial payload. -/
theorem build_missing_year_no_failure :
    List.lookup 2045 (build_transport_fuel_share dfMissing2045) =
      some [(("gasoline"), (some 0 : FVal)), (("diesel"), some 0),
            (("electric"), some 0), (("biofuel"), some 0)] ∧
    build_transport_activity kmMissing2045 =
      some [(2020, (some 100 : FVal)), (2025, some 100), (2030, some 100), (2035, some 100),
            (2040, some 100), (2045, none), (2050, some 120)] := by decide

/-- C2: the recomputed totals row of the fuel-mix editor (GUIapp.py line 282)
sums over ALL rows of the edited frame, INCLUDING the stored
"Total (%)" row: on the untouched default frame every year's recomputed
total is 200 = 30+40+20+10+100, while the spec's derived four-kind total of
the default matrix is 100 — the total pseudo-kind is an input to the code's
sum. -/
theorem totals_series_includes_total_row :
    totals_series ((default_transport_df.reindex YEARS FUEL_ROWS none).transpose) =
      [(2020, (200 : ℚ)), (2025, 200), (2030, 200), (2035, 200),
       (2040, 200), (2045, 200), (2050, 200)] ∧
    derived_total default_transport_df 2020 = 100 ∧ ((200 : ℚ) ≠ 100) := by
  refine ⟨?_, ?_, by norm_num⟩
  · norm_num [totals_series, DF.transpose, DF.reindex, default_transport_df,
      baseRow_g, baseRow_d, baseRow_e, baseRow_b, baseRow_t, YEARS, FUEL_ROWS, List.range']
  · norm_num [derived_total, default_transport_df, baseRow_g, baseRow_d, baseRow_e, baseRow_b]

/-- C5: the default FuelShareMatrix carries the constant 30/40/20/10 split for
every year, the default ActivityVector is 100 everywhere except 120 at the
final year 2050, and the default matrix validates with zero offending years. -/
theorem default_state_valid :
    (∀ y ∈ YEARS,
      default_transport_df.entry y ("Gasoline (%)") = some 30 ∧
      default_transport_df.entry y ("Diesel (%)") = some 40 ∧
      default_transport_df.entry y ("Electric (%)") = some 20 ∧
      default_transport_df.entry y ("Biofuel (%)") = some 10) ∧
    (∀ y ∈ YEARS, y ≠ 2050 →
      default_transport_km_wide.entry ("Transport km (% of 2020)") y = some 100) ∧
    default_transport_km_wide.entry ("Transport km (% of 2020)") 2050 = some 120 ∧
    validate default_transport_df = [] := by
  refine ⟨?_, ?_, by decide, ?_⟩
  · intro y hy
    exact ⟨rfl, rfl, rfl, rfl⟩
  · intro y hy hne
    simp [default_transport_km_wide, hne]
  · norm_num [validate, derived_total, default_transport_df,
      baseRow_g, baseRow_d, baseRow_e, baseRow_b, YEARS, List.range', List.filter]

/-- C5 witness: the constant split at 2020 and the activity default at 2045. -/
theorem default_state_valid_witness :
    default_transport_df.entry 2020 ("Gasoline (%)") = some 30 ∧
    default_transport_km_wide.entry ("Transport km (% of 2020)") 2045 = some 100 :=
  ⟨(default_state_valid.1 2020 (by decide)).1,
   default_state_valid.2.1 2045 (by decide) (by decide)⟩

/-- C6: the payload build is a pure function of the selection and the two
frames — two builds of identical (unchanged) inputs produce structurally
identical payloads. -/
theorem build_payload_deterministic :
    ∀ (sel : Selection) (d : DF Nat String) (km : DF String Nat) (p q : Option RunPayload),
      buildRunPayload sel d km = p → buildRunPayload sel d km = q → p = q := by
  intro sel d km p q hp hq
  exact hp.symm.trans hq

/-- C6 witness: two builds from the default session state coincide. -/
theorem build_payload_deterministic_witness :
    buildRunPayload defaultSelection default_transport_df default_transport_km_wide =
      buildRunPayload defaultSelection default_transport_df default_transport_km_wide :=
  build_payload_deterministic defaultSelection default_transport_df default_transport_km_wide
    _ _ rfl rfl

/-- C7: a fuel edit with a value outside [0, 100] is rejected with
`OutOfRange` (the prior table is retained — no new table is produced), a
value inside succeeds and overwrites the single cell; in particular
`apply_fuel_edit(2020, gasoline, 100.5)` fails with `OutOfRange` and
`apply_fuel_edit(2020, gasoline, 100.0)` succeeds. -/
theorem apply_fuel_edit_range :
    ∀ (d : DF Nat String) (year : Nat) (kind : FuelKind) (v : ℚ),
      year ∈ YEARS →
      (¬ (0 ≤ v ∧ v ≤ 100) →
        apply_fuel_edit d year kind v = Except.error EditError.OutOfRange) ∧
      ((0 ≤ v ∧ v ≤ 100) → ∃ d2, apply_fuel_edit d year kind v = Except.ok d2 ∧
        d2.entry year kind.col = some v) ∧
      apply_fuel_edit d 2020 FuelKind.gasoline (201/2) = Except.error EditError.OutOfRange ∧
      ∃ d2, apply_fuel_edit d 2020 FuelKind.gasoline 100 = Except.ok d2 ∧
        d2.entry 2020 FuelKind.gasoline.col = some 100 := by
  intro d year kind v hy
  refine ⟨?_, ?_, ?_, ?_⟩
  · intro hv
    simp [apply_fuel_edit, hy, hv]
  · intro hv
    refine ⟨{ index := d.index, columns := d.columns,
              entry := fun r c => if r = year ∧ c = kind.col then some v else d.entry r c },
            ?_, ?_⟩
    · simp [apply_fuel_edit, hy, hv]
    · simp
  · have hv : ¬ ((0 : ℚ) ≤ 201/2 ∧ (201 : ℚ)/2 ≤ 100) := by norm_num
    simp [apply_fuel_edit, hv, (by decide : (2020 : Nat) ∈ YEARS)]
  · have hv : (0 : ℚ) ≤ 100 ∧ (100 : ℚ) ≤ 100 := by norm_num
    refine ⟨{ index := d.index, columns := d.columns,
              entry := fun r c =>
                if r = 2020 ∧ c = FuelKind.gasoline.col then some 100 else d.entry r c },
            ?_, ?_⟩
    · simp [apply_fuel_edit, hv, (by decide : (2020 : Nat) ∈ YEARS)]
    · simp

/-- C7 witness: the 100.5 boundary rejection at the default table. -/
theorem apply_fuel_edit_range_witness :
    apply_fuel_edit default_transport_df 2020 FuelKind.gasoline (201/2) =
      Except.error EditError.OutOfRange :=
  (apply_fuel_edit_range default_transport_df 2020 FuelKind.gasoline (201/2)
    (by decide)).2.2.1

/-- C8: the submit call POSTs to `{base_url}/v1/run`; the Authorization
header carries `Bearer {token}` exactly when a token is configured
(non-empty), and with no token the header list is empty — the header is
omitted entirely, not sent empty. -/
theorem legacy_run_auth_header :
    ∀ (base token : String),
      (legacy_run_request base token).method = ("POST") ∧
      (legacy_run_request base token).url = base ++ ("/v1/run") ∧
      List.lookup ("Authorization") (legacy_run_request base token).headers =
        (if token = "" then none else some (("Bearer ") ++ token)) ∧
      (token = "" → (legacy_run_request base token).headers = []) := by
  intro base token
  refine ⟨rfl, rfl, ?_, ?_⟩
  · by_cases h : token = "" <;>
      simp [legacy_run_request, legacy_run_headers, h, List.lookup]
  · intro h
    simp [legacy_run_request, legacy_run_headers, h]

/-- C8 witness: with an empty token the header list is empty, and with a
token the Authorization header carries the bearer value. -/
theorem legacy_run_auth_header_witness :
    (legacy_run_request ("http://127.0.0.1:8000") ("")).headers = [] ∧
    List.lookup ("Authorization")
        (legacy_run_request ("http://127.0.0.1:8000") ("secret")).headers =
      some (("Bearer ") ++ ("secret")) := by
  refine ⟨(legacy_run_auth_header ("http://127.0.0.1:8000") ("")).2.2.2 rfl, ?_⟩
  have h := (legacy_run_auth_header ("http://127.0.0.1:8000") ("secret")).2.2.1
  simpa using h

/-- C9: for every 2xx response the call returns the decoded JSON body when
the body decodes, and otherwise returns the raw text wrapped under the
`raw_text` key — it never raises on a non-JSON 2xx body. -/
theorem legacy_run_json_fallback :
    ∀ (J : Type) (parse : String → Option J) (r : HttpResponse),
      200 ≤ r.status → r.status ≤ 299 →
      call_backend_legacy_run parse r =
        (match parse r.text with
         | some j => Except.ok (RunResult.json j)
         | none => Except.ok (RunResult.raw_text r.text)) := by
  intro J parse r h1 h2
  have hns : ¬ (400 ≤ r.status ∧ r.status ≤ 599) := by omega
  unfold call_backend_legacy_run raise_for_status
  rw [if_neg hns]

/-- C9 witness: a 200 response whose body does not decode comes back wrapped
under `raw_text`. -/
theorem legacy_run_json_fallback_witness :
    call_backend_legacy_run (fun _ => (none : Option String))
        { status := 200, text := ("pong") } =
      Except.ok (RunResult.raw_text ("pong")) :=
  legacy_run_json_fallback String (fun _ => none)
    { status := 200, text := ("pong") } (by decide) (by decide)

/-- Lookup in an appended association list succeeds on the left part first. -/
theorem lookup_append_left {β : Type} (l1 l2 : List (String × β)) (k : String) (v : β)
    (h : List.lookup k l1 = some v) : List.lookup k (l1 ++ l2) = some v := by
  induction l1 with
  | nil => cases h
  | cons hd tl ih =>
      obtain ⟨k2, v2⟩ := hd
      rw [List.cons_append]
      by_cases hk : k = k2
      · simp [List.lookup, hk] at h ⊢
        exact h
      · simp only [List.lookup, beq_eq_false_iff_ne.mpr hk] at h ⊢
        exact ih h

/-- Lookup in an appended association list falls through to the right part
when the key is absent from the left. -/
theorem lookup_append_none {β : Type} (l1 l2 : List (String × β)) (k : String)
    (h : List.lookup k l1 = none) : List.lookup k (l1 ++ l2) = List.lookup k l2 := by
  induction l1 with
  | nil => rfl
  | cons hd tl ih =>
      obtain ⟨k2, v2⟩ := hd
      rw [List.cons_append]
      by_cases hk : k = k2
      · simp [List.lookup, hk] at h
      · simp only [List.lookup, beq_eq_false_iff_ne.mpr hk] at h ⊢
        exact ih h

/-- `setdefault` never changes an existing binding. -/
theorem lookup_setdefault_preserve (st : SessionState) (k2 : String) (v2 : StateVal)
    (k : String) (v : StateVal) (h : List.lookup k st = some v) :
    List.lookup k (setdefault st k2 v2) = some v := by
  unfold setdefault
  cases hl : List.lookup k2 st with
  | some w => exact h
  | none => exact lookup_append_left st [(k2, v2)] k v h

/-- After `setdefault st k v` the key `k` is bound. -/
theorem lookup_setdefault_self (st : SessionState) (k : String) (v : StateVal) :
    (List.lookup k (setdefault st k v)).isSome := by
  unfold setdefault
  cases hl : List.lookup k st with
  | some w => simp [hl]
  | none =>
      rw [lookup_append_none st [(k, v)] k hl]
      simp [List.lookup]

/-- `setdefault` with an already-bound key is the identity. -/
theorem setdefault_of_present (st : SessionState) (k : String) (v : StateVal)
    (h : (List.lookup k st).isSome) : setdefault st k v = st := by
  unfold setdefault
  cases hl : List.lookup k st with
  | some w => rfl
  | none => rw [hl] at h; cases h

/-- Folding `setdefault` over any default list never changes an existing
binding. -/
theorem lookup_foldl_setdefault (kvs : List (String × StateVal)) (st : SessionState)
    (k : String) (v : StateVal) (h : List.lookup k st = some v) :
    List.lookup k (kvs.foldl (fun s kv => setdefault s kv.1 kv.2) st) = some v := by
  induction kvs generalizing st with
  | nil => exact h
  | cons hd tl ih => exact ih _ (lookup_setdefault_preserve st hd.1 hd.2 k v h)

/-- Folding `setdefault` over any default list keeps a bound key bound. -/
theorem isSome_foldl_setdefault (kvs : List (String × StateVal)) (st : SessionState)
    (k : String) (h : (List.lookup k st).isSome) :
    (List.lookup k (kvs.foldl (fun s kv => setdefault s kv.1 kv.2) st)).isSome := by
  obtain ⟨v, hv⟩ := Option.isSome_iff_exists.mp h
  rw [lookup_foldl_setdefault kvs st k v hv]
  rfl

/-- After the fold, every key of the default list is bound. -/
theorem foldl_setdefault_keys_present (kvs : List (String × StateVal)) (st : SessionState) :
    ∀ kv ∈ kvs,
      (List.lookup kv.1 (kvs.foldl (fun s kv => setdefault s kv.1 kv.2) st)).isSome := by
  induction kvs generalizing st with
  | nil => intro kv hkv; cases hkv
  | cons hd tl ih =>
      intro kv hkv
      rcases List.mem_cons.mp hkv with heq | htl
      · subst heq
        exact isSome_foldl_setdefault tl (setdefault st kv.1 kv.2) kv.1
          (lookup_setdefault_self st kv.1 kv.2)
      · exact ih (setdefault st hd.1 hd.2) kv htl

/-- Folding `setdefault` over defaults whose keys are all bound is the
identity. -/
theorem foldl_setdefault_all_present (kvs : List (String × StateVal)) (st : SessionState)
    (h : ∀ kv ∈ kvs, (List.lookup kv.1 st).isSome) :
    kvs.foldl (fun s kv => setdefault s kv.1 kv.2) st = st := by
  induction kvs generalizing st with
  | nil => rfl
  | cons hd tl ih =>
      rw [List.foldl_cons, setdefault_of_present st hd.1 hd.2 (h hd (List.mem_cons_self hd tl))]
      exact ih st (fun kv hkv => h kv (List.mem_cons_of_mem hd hkv))

/-- C10: `init_state` is non-destructive and idempotent: it sets a default
only for absent keys, so any binding already in the session state — user
edits included — survives, and running it a second time changes nothing. -/
theorem init_state_preserves_existing :
    ∀ (st : SessionState) (k : String) (v : StateVal),
      List.lookup k st = some v →
      List.lookup k (init_state st) = some v ∧ init_state (init_state st) = init_state st := by
  intro st k v h
  constructor
  · exact lookup_foldl_setdefault init_state_defaults st k v h
  · exact foldl_setdefault_all_present init_state_defaults (init_state st)
      (fun kv hkv => foldl_setdefault_keys_present init_state_defaults st kv hkv)

/-- C10 witness: a pre-existing `country` binding survives initialization. -/
theorem init_state_preserves_existing_witness :
    List.lookup ("country") (init_state [(("country"), StateVal.str ("Sydney"))]) =
      some (StateVal.str ("Sydney")) :=
  (init_state_preserves_existing [(("country"), StateVal.str ("Sydney"))]
    ("country") (StateVal.str ("Sydney")) rfl).1
